import Mathlib

/-!
Verification development for the SnipShare snippet/file sharing service.

The development shallowly embeds the core of the repository:
the Web-Crypto based encryption pipeline (src/lib/encryption.ts), the
database operations (src/lib/db.ts, D1 variant), and the HTTP create/read
handlers (src/app/api/snippets/route.ts, src/app/api/snippets/[id]/route.ts,
src/app/api/files/route.ts, and the file download handler).

Platform crypto (crypto.subtle AES-GCM, PBKDF2) is external to the
repository; it is modelled symbolically as an ideal AEAD / ideal KDF, as
described by the specification (section 4.1): encryption is invertible with
the right key and IV, and authentication always fails with a wrong key
(the GCM tag binds key, IV and ciphertext).  Randomness (salts, IVs, fresh
keys, fresh ids) is passed to each operation as an explicit argument.
Base64 and JSON envelope serialisation are platform codecs that round-trip;
they are modelled as transparent constructors.
-/

namespace SnipShare

/-- Symbolic key values.  `pbkdf2 password salt` models the result of
`deriveKey` (PBKDF2-HMAC-SHA256, 100000 iterations) in
src/lib/encryption.ts; `random seed` models a fresh random AES-256 key from
`generateEncryptionKey` (the entropy is the explicit `seed` argument).
Modelled from the spec: PBKDF2 is deterministic in (password, salt), and
distinct passwords give distinct keys (ideal KDF, collisions ignored). -/
inductive Key where
  | pbkdf2 (password : String) (salt : List Nat)
  | random (seed : Nat)
deriving DecidableEq

/-- Symbolic password-hash values: `pbkdf2bits password salt` models the
256 derived bits of `hashPassword` / `verifyPasswordHash` in
src/lib/encryption.ts.  Modelled from the spec: an ideal one-way derivation,
deterministic in (password, salt). -/
inductive PwHash where
  | pbkdf2bits (password : String) (salt : List Nat)
deriving DecidableEq

/-- Symbolic runtime values: JavaScript strings and ArrayBuffers as they
flow through the encryption pipeline.
* `str` — an ordinary string (user content, passwords);
* `bytes` — concrete bytes (file payloads);
* `encoded v` — `new TextEncoder().encode(v)` of a string value `v`;
* `gcm key iv plain` — AES-GCM ciphertext-plus-tag of `plain` under
  `key` and `iv` (ideal AEAD, modelled from the spec);
* `ivPacked iv ct` — the `encryptWithKey` wire format `IV(12) || ct`;
* `saltIvPacked salt iv ct` — the `encryptBuffer` wire format
  `salt(16) || IV(12) || ct`;
* `b64 d` — the base64 string `arrayBufferToBase64 d` (transparent codec);
* `jsonEnc salt iv data` — the JSON envelope string
  `JSON.stringify {salt, iv, data}` produced by `encryptContent`
  (salt and iv are stored base64-encoded in the source; the codec is
  transparent here). -/
inductive Val where
  | str (s : String)
  | bytes (bs : List Nat)
  | encoded (v : Val)
  | gcm (key : Key) (iv : List Nat) (plain : Val)
  | ivPacked (iv : List Nat) (ct : Val)
  | saltIvPacked (salt : List Nat) (iv : List Nat) (ct : Val)
  | b64 (d : Val)
  | jsonEnc (salt : List Nat) (iv : List Nat) (data : Val)
deriving DecidableEq

/-- Ideal AES-GCM encryption (crypto.subtle.encrypt with an AES-GCM key). -/
def gcmEncrypt (key : Key) (iv : List Nat) (plain : Val) : Val :=
  Val.gcm key iv plain

/-- Ideal AES-GCM decryption (crypto.subtle.decrypt).  Fails (the
authentication tag does not verify) unless the data is a GCM ciphertext
produced under the same key and IV.  Modelled from the spec: AEAD
decryption fails rather than returning garbage on wrong key or tampering. -/
def gcmDecrypt (key : Key) (iv : List Nat) (data : Val) : Option Val :=
  match data with
  | Val.gcm k i p => if k = key ∧ i = iv then some p else none
  | _ => none

/-- arrayBufferToBase64 from src/lib/encryption.ts (platform btoa codec,
modelled as a transparent injective wrapper). -/
def arrayBufferToBase64 (d : Val) : Val := Val.b64 d

/-- base64ToArrayBuffer from src/lib/encryption.ts (platform atob codec;
fails on a value that is not a base64 string). -/
def base64ToArrayBuffer (v : Val) : Option Val :=
  match v with
  | Val.b64 d => some d
  | _ => none

/-- new TextEncoder().encode(...) on a string value. -/
def textEncode (v : Val) : Val := Val.encoded v

/-- new TextDecoder().decode(...) on a buffer; yields the original string
value when the buffer is TextEncoder output, and fails (garbage) otherwise. -/
def textDecode (d : Val) : Option Val :=
  match d with
  | Val.encoded v => some v
  | _ => none

/-- deriveKey from src/lib/encryption.ts: PBKDF2-HMAC-SHA256 key
derivation from a password and a salt. -/
def deriveKey (password : String) (salt : List Nat) : Key :=
  Key.pbkdf2 password salt

/-- encryptContent from src/lib/encryption.ts: derives a key from the
password and a fresh 16-byte salt, encrypts the TextEncoder-encoded content
with AES-GCM under a fresh 12-byte IV, and packs salt, IV and base64
ciphertext into a JSON envelope string.  The fresh salt and IV are explicit
arguments. -/
def encryptContent (content : Val) (password : String)
    (salt iv : List Nat) : Val :=
  Val.jsonEnc salt iv
    (arrayBufferToBase64 (gcmEncrypt (deriveKey password salt) iv (textEncode content)))

/-- decryptContent from src/lib/encryption.ts: parses the JSON envelope,
re-derives the key from the password and the stored salt, and decrypts;
every failure (JSON parse, base64, GCM tag) is caught and returned as
null (`none`). -/
def decryptContent (encryptedContent : Val) (password : String) : Option Val :=
  match encryptedContent with
  | Val.jsonEnc salt iv data =>
    match base64ToArrayBuffer data with
    | some buf =>
      match gcmDecrypt (deriveKey password salt) iv buf with
      | some plain => textDecode plain
      | none => none
    | none => none
  | _ => none

/-- generateEncryptionKey from src/lib/encryption.ts: a fresh random
AES-256 key (returned base64-encoded in the source; the entropy is the
explicit `seed`). -/
def generateEncryptionKey (seed : Nat) : Key := Key.random seed

/-- encryptWithKey from src/lib/encryption.ts: AES-GCM under the given
(base64-encoded) key with a fresh 12-byte IV, output packed as
`IV(12) || ciphertext+tag`. -/
def encryptWithKey (data : Val) (key : Key) (iv : List Nat) : Val :=
  Val.ivPacked iv (gcmEncrypt key iv data)

/-- decryptWithKey from src/lib/encryption.ts: slices the 12-byte IV off
the front and AES-GCM-decrypts the rest.  Unlike decryptContent this
function does not catch failures (the caller's try/catch does). -/
def decryptWithKey (data : Val) (key : Key) : Option Val :=
  match data with
  | Val.ivPacked iv ct => gcmDecrypt key iv ct
  | _ => none

/-- encryptBuffer from src/lib/encryption.ts: password-based AES-GCM over
binary data, output packed as `salt(16) || IV(12) || ciphertext+tag`. -/
def encryptBuffer (data : Val) (password : String)
    (salt iv : List Nat) : Val :=
  Val.saltIvPacked salt iv (gcmEncrypt (deriveKey password salt) iv data)

/-- decryptBuffer from src/lib/encryption.ts: slices salt and IV off the
front, re-derives the key and decrypts; failures are caught and returned
as null (`none`). -/
def decryptBuffer (data : Val) (password : String) : Option Val :=
  match data with
  | Val.saltIvPacked salt iv ct => gcmDecrypt (deriveKey password salt) iv ct
  | _ => none

/-- hashPassword from src/lib/encryption.ts: PBKDF2 derivation of 256 bits
from the password and a fresh 16-byte salt (explicit argument); returns
the hash together with the salt. -/
def hashPassword (password : String) (salt : List Nat) : PwHash × List Nat :=
  (PwHash.pbkdf2bits password salt, salt)

/-- verifyPasswordHash from src/lib/encryption.ts: re-derives the PBKDF2
hash from the candidate password and the stored salt and compares it with
the stored hash. -/
def verifyPasswordHash (password : String) (storedHash : PwHash)
    (storedSalt : List Nat) : Bool :=
  decide (PwHash.pbkdf2bits password storedSalt = storedHash)

/-! ## Data model (src/lib/schema.ts, D1 variant) -/

/-- One row of the `snippets` table, following src/lib/schema.ts (the
variant with file-upload fields).  `content` is a string column holding
either the server-encrypted base64 payload or, for password-protected
snippets, the JSON envelope; timestamps are Unix milliseconds except
`created_at`, which the source stores in seconds. -/
structure Snippet where
  id : String
  content : Val
  language : String
  title : Option String
  password_hash : Option PwHash
  password_salt : Option (List Nat)
  is_encrypted : Bool
  expires_at : Option Int
  burn_after_read : Bool
  view_count : Nat
  created_at : Int
  is_deleted : Bool
  type : String
  file_name : Option String
  file_size : Option Nat
  file_type : Option String
  r2_key : Option String
  encryption_key : Option Key
deriving DecidableEq

abbrev SnippetTable := List Snippet

/-- One row of the `rate_limits` table (src/lib/schema.ts). -/
structure RateLimitEntry where
  ip : String
  action : String
  timestamp : Int
deriving DecidableEq

/-! ## Database operations (src/lib/db.ts, D1 variant) -/

/-- The `select ... where id = ? and is_deleted = false` lookup inside
getSnippetById: the first matching row, if any (`id` is the primary key). -/
def findActive : SnippetTable → String → Option Snippet
  | [], _ => none
  | s :: rest, i =>
    if s.id = i ∧ s.is_deleted = false then some s else findActive rest i

/-- markAsDeleted from src/lib/db.ts: `update snippets set is_deleted =
true where id = ?`. -/
def markAsDeleted : SnippetTable → String → SnippetTable
  | [], _ => []
  | s :: rest, i =>
    (if s.id = i then { s with is_deleted := true } else s) :: markAsDeleted rest i

/-- incrementViewCount from src/lib/db.ts: reads the row and writes back
`view_count + 1` (`id` is the primary key, so at most one row matches). -/
def incrementViewCount : SnippetTable → String → SnippetTable
  | [], _ => []
  | s :: rest, i =>
    (if s.id = i then { s with view_count := s.view_count + 1 } else s)
      :: incrementViewCount rest i

/-- The expiry test `snippet.expires_at && snippet.expires_at < Date.now()`
in getSnippetById.  JavaScript truthiness: both null and the number 0 are
falsy, so a zero timestamp is never considered expired. -/
def expiredNow (e : Option Int) (now : Int) : Bool :=
  match e with
  | none => false
  | some t => decide (t ≠ 0) && decide (t < now)

/-- getSnippetById from src/lib/db.ts: select the non-deleted row; if its
expiry has passed, mark it deleted as a side effect of the read and report
it as absent.  Returns the lookup result together with the table after the
read. -/
def getSnippetById (tbl : SnippetTable) (i : String) (now : Int) :
    Option Snippet × SnippetTable :=
  match findActive tbl i with
  | none => (none, tbl)
  | some s =>
    if expiredNow s.expires_at now then (none, markAsDeleted tbl i)
    else (some s, tbl)

/-- verifyPassword from src/lib/db.ts (D1 variant): a snippet whose stored
hash or salt is missing accepts every candidate password; otherwise the
candidate is checked against the stored PBKDF2 hash. -/
def verifyPassword (s : Snippet) (password : String) : Bool :=
  match s.password_hash, s.password_salt with
  | some h, some salt => verifyPasswordHash password h salt
  | _, _ => true

/-- The JavaScript truthiness test `if (password)` used on optional string
inputs: null/undefined and the empty string are falsy. -/
def strTruthy (o : Option String) : Bool :=
  match o with
  | none => false
  | some s => decide (s ≠ "")

/-- Input record of createSnippet (src/lib/db.ts).  The src snapshot of
db.ts predates the `encryption_key` column of src/lib/schema.ts;
`encryptionKey` is the argument the POST route passes.  Modelled from the
spec: the server key is set once, at creation (section 3, serverKey). -/
structure CreateSnippetInput where
  id : String
  content : Val
  language : String
  title : Option String
  password : Option String
  expiresIn : Option Int
  burnAfterRead : Bool
  type : String
  fileName : Option String
  fileSize : Option Nat
  fileType : Option String
  r2Key : Option String
  encryptionKey : Option Key

/-- createSnippet from src/lib/db.ts (D1 variant): builds the row and
inserts it.  `expiresAt = expiresIn ? Date.now() + expiresIn : null`
(JavaScript truthiness: 0 behaves like null); the password hash and salt
are stored only when a password is supplied (empty string is falsy).  The
fresh hash salt is an explicit argument. -/
def createSnippet (tbl : SnippetTable) (input : CreateSnippetInput)
    (now : Int) (hashSalt : List Nat) : Snippet × SnippetTable :=
  let expiresAt : Option Int :=
    match input.expiresIn with
    | some e => if e ≠ 0 then some (now + e) else none
    | none => none
  let pw : Option PwHash × Option (List Nat) :=
    if strTruthy input.password then
      (some (PwHash.pbkdf2bits (input.password.getD "") hashSalt), some hashSalt)
    else (none, none)
  let s : Snippet :=
    { id := input.id
      content := input.content
      language := input.language
      title := input.title
      password_hash := pw.1
      password_salt := pw.2
      is_encrypted := strTruthy input.password
      expires_at := expiresAt
      burn_after_read := input.burnAfterRead
      view_count := 0
      created_at := now / 1000
      is_deleted := false
      type := input.type
      file_name := input.fileName
      file_size := input.fileSize
      file_type := input.fileType
      r2_key := input.r2Key
      encryption_key := input.encryptionKey }
  (s, tbl ++ [s])

/-- The opportunistic purge inside checkRateLimit:
`delete from rate_limits where timestamp < windowStart`.  Note that the
delete is not restricted to the (ip, action) pair being checked. -/
def purgeOld : List RateLimitEntry → Int → List RateLimitEntry
  | [], _ => []
  | r :: rest, ws =>
    if r.timestamp < ws then purgeOld rest ws else r :: purgeOld rest ws

/-- The count inside checkRateLimit:
`select from rate_limits where ip = ? and action = ?` (no timestamp
filter; the purge is relied on to have removed stale rows). -/
def countMatching : List RateLimitEntry → String → String → Nat
  | [], _, _ => 0
  | r :: rest, ip, act =>
    (if r.ip = ip ∧ r.action = act then 1 else 0) + countMatching rest ip act

/-- checkRateLimit from src/lib/db.ts: purge rows older than
`now - windowMs`, count the remaining rows for (ip, action); at or above
`maxRequests` reject without recording, otherwise insert a new entry
timestamped `now` and allow. -/
def checkRateLimit (rl : List RateLimitEntry) (ip action : String)
    (maxRequests : Nat) (windowMs : Int) (now : Int) :
    Bool × List RateLimitEntry :=
  let windowStart := now - windowMs
  let purged := purgeOld rl windowStart
  let cnt := countMatching purged ip action
  if maxRequests ≤ cnt then (false, purged)
  else (true, purged ++ [⟨ip, action, now⟩])

/-- The number of rate-limit rows for (ip, action) whose timestamp lies in
the closed window [lo, hi] — the count the specification describes. -/
def countWindow : List RateLimitEntry → String → String → Int → Int → Nat
  | [], _, _, _, _ => 0
  | r :: rest, ip, act, lo, hi =>
    (if r.ip = ip ∧ r.action = act ∧ lo ≤ r.timestamp ∧ r.timestamp ≤ hi
     then 1 else 0) + countWindow rest ip act lo hi

/-! ## Settings (src/lib/db.ts) and server state -/

/-- AppSettings from src/lib/db.ts.  `allowed_file_types` is stored as a
comma-separated string in the source and already split into a list here. -/
structure AppSettings where
  rate_limit_per_minute : Nat
  rate_limit_per_hour : Nat
  rate_limit_per_day : Nat
  max_file_size_mb : Nat
  allowed_file_types : List String

/-- DEFAULT_SETTINGS from src/lib/db.ts (file-extension list abridged to
the entries exercised here). -/
def defaultSettings : AppSettings :=
  { rate_limit_per_minute := 10
    rate_limit_per_hour := 20
    rate_limit_per_day := 100
    max_file_size_mb := 5
    allowed_file_types := [".txt", ".md", ".pdf", ".json", ".png", ".zip"] }

/-- The shared persistent state the handlers touch: the D1 tables and the
R2 object store (key to stored bytes). -/
structure ServerState where
  snippets : SnippetTable
  rateLimits : List RateLimitEntry
  blockedIps : List String
  r2 : List (String × Val)
deriving DecidableEq

/-- R2 `get`: first stored object under the key, if any. -/
def r2get : List (String × Val) → String → Option Val
  | [], _ => none
  | (k, v) :: rest, key => if k = key then some v else r2get rest key

/-- R2 `delete`: removes the objects stored under the key. -/
def r2delete : List (String × Val) → String → List (String × Val)
  | [], _ => []
  | (k, v) :: rest, key =>
    if k = key then r2delete rest key else (k, v) :: r2delete rest key

/-! ## Create handlers -/

/-- The validation `if (expiresIn && expiresIn > maxExpiration)` shared by
both create routes (maxExpiration = 14 days in milliseconds; JavaScript
truthiness makes 0 pass as if absent). -/
def expiresTooLong (e : Option Int) : Bool :=
  match e with
  | none => false
  | some x => decide (x ≠ 0) && decide (1209600000 < x)

/-- Outcomes of POST /api/snippets (src/app/api/snippets/route.ts). -/
inductive CreateResponse where
  | blocked
  | rateLimitedMinute
  | rateLimitedHour
  | rateLimitedDay
  | contentRequired
  | contentTooLarge
  | expirationTooLong
  | created (id : String)
deriving DecidableEq

/-- POST /api/snippets (src/app/api/snippets/route.ts, D1 variant).
Order of effects as in the source: denylist check first, then the
per-minute / per-hour / per-day sliding windows (each purges and, when it
allows, records), then body validation, then the mandatory server-key
encryption layer with the optional password layer on top, then the insert.
Entropy (fresh id, server-key seed, IVs, salts) is passed explicitly. -/
def snippetsPOST (st : ServerState) (cfg : AppSettings) (ip : String)
    (content language title password : Option String)
    (expiresIn : Option Int) (burnAfterRead : Option Bool) (now : Int)
    (freshId : String) (keySeed : Nat)
    (serverIv pwSalt pwIv hashSalt : List Nat) :
    CreateResponse × ServerState :=
  if ip ∈ st.blockedIps then (.blocked, st)
  else
    let m := checkRateLimit st.rateLimits ip "create"
      cfg.rate_limit_per_minute 60000 now
    if m.1 = false then (.rateLimitedMinute, { st with rateLimits := m.2 })
    else
      let h := checkRateLimit m.2 ip "create_hour"
        cfg.rate_limit_per_hour 3600000 now
      if h.1 = false then (.rateLimitedHour, { st with rateLimits := h.2 })
      else
        let d := checkRateLimit h.2 ip "create_daily"
          cfg.rate_limit_per_day 86400000 now
        let st3 := { st with rateLimits := d.2 }
        if d.1 = false then (.rateLimitedDay, st3)
        else
          match content with
          | none => (.contentRequired, st3)
          | some c =>
            if c = "" then (.contentRequired, st3)
            else if 500000 < c.length then (.contentTooLarge, st3)
            else if expiresTooLong expiresIn then (.expirationTooLong, st3)
            else
              let encryptionKey := generateEncryptionKey keySeed
              let encryptedBase64 :=
                arrayBufferToBase64
                  (encryptWithKey (textEncode (Val.str c)) encryptionKey serverIv)
              let finalContent :=
                if strTruthy password then
                  encryptContent encryptedBase64 (password.getD "") pwSalt pwIv
                else encryptedBase64
              let ins := createSnippet st3.snippets
                { id := freshId
                  content := finalContent
                  language := language.getD "plaintext"
                  title := title
                  password := password
                  expiresIn := expiresIn
                  burnAfterRead := burnAfterRead.getD false
                  type := "text"
                  fileName := none
                  fileSize := none
                  fileType := none
                  r2Key := none
                  encryptionKey := some encryptionKey } now hashSalt
              (.created freshId, { st3 with snippets := ins.2 })

/-- A multipart file upload: name, byte size, MIME type reported by the
browser, and content bytes. -/
structure UploadFile where
  name : String
  size : Nat
  mime : String
  data : Val

/-- Outcomes of POST /api/files (src/app/api/files/route.ts). -/
inductive FileCreateResponse where
  | blocked
  | rateLimitedMinute
  | rateLimitedHour
  | rateLimitedDay
  | fileRequired
  | fileTooLarge
  | fileEmpty
  | fileTypeNotAllowed
  | expirationTooLong
  | created (id : String)
deriving DecidableEq

/-- The suffix of the name starting at its LAST dot, if any. -/
def lastDotSuffix : List Char → Option (List Char)
  | [] => none
  | c :: rest =>
    match lastDotSuffix rest with
    | some s => some s
    | none => if c = '.' then some (c :: rest) else none

/-- getFileExtension from src/app/api/files/route.ts: the lower-cased
substring from the last dot, or the empty string when there is no dot. -/
def getFileExtension (filename : String) : String :=
  match lastDotSuffix filename.toList with
  | none => ""
  | some s => String.mk (s.map Char.toLower)

/-- POST /api/files (src/app/api/files/route.ts).  Same denylist and
rate-limit prologue as the snippet route; validates size, emptiness and
extension; then encrypts the bytes with the password layer ONLY when a
password was supplied (there is no server-key layer on this route),
uploads to R2 and inserts the metadata row (`content` empty, no
encryption key).  The static extension-to-MIME table is display metadata
and elided: the stored MIME type is the upload's. -/
def filesPOST (st : ServerState) (cfg : AppSettings) (ip : String)
    (file : Option UploadFile) (password : Option String)
    (expiresIn : Option Int) (burnAfterRead : Bool) (now : Int)
    (freshId : String) (pwSalt pwIv hashSalt : List Nat) :
    FileCreateResponse × ServerState :=
  if ip ∈ st.blockedIps then (.blocked, st)
  else
    let m := checkRateLimit st.rateLimits ip "create"
      cfg.rate_limit_per_minute 60000 now
    if m.1 = false then (.rateLimitedMinute, { st with rateLimits := m.2 })
    else
      let h := checkRateLimit m.2 ip "create_hour"
        cfg.rate_limit_per_hour 3600000 now
      if h.1 = false then (.rateLimitedHour, { st with rateLimits := h.2 })
      else
        let d := checkRateLimit h.2 ip "create_daily"
          cfg.rate_limit_per_day 86400000 now
        let st3 := { st with rateLimits := d.2 }
        if d.1 = false then (.rateLimitedDay, st3)
        else
          match file with
          | none => (.fileRequired, st3)
          | some f =>
            if cfg.max_file_size_mb * 1024 * 1024 < f.size then
              (.fileTooLarge, st3)
            else if f.size = 0 then (.fileEmpty, st3)
            else
              let ext := getFileExtension f.name
              if ext = "" ∨ ext ∉ cfg.allowed_file_types then
                (.fileTypeNotAllowed, st3)
              else if expiresTooLong expiresIn then (.expirationTooLong, st3)
              else
                let r2Key := "files/" ++ freshId ++ "/" ++ f.name
                let fileData :=
                  if strTruthy password then
                    encryptBuffer f.data (password.getD "") pwSalt pwIv
                  else f.data
                let r2After := st3.r2 ++ [(r2Key, fileData)]
                let ins := createSnippet st3.snippets
                  { id := freshId
                    content := Val.str ""
                    language := "plaintext"
                    title := some f.name
                    password := password
                    expiresIn := expiresIn
                    burnAfterRead := burnAfterRead
                    type := "file"
                    fileName := some f.name
                    fileSize := some f.size
                    fileType := some f.mime
                    r2Key := some r2Key
                    encryptionKey := none } now hashSalt
                (.created freshId, { st3 with snippets := ins.2, r2 := r2After })

/-! ## Read handlers -/

/-- The metadata fields the snippet read endpoint returns (language,
title, view count, timestamps, flags — and never the content). -/
structure SnippetMeta where
  id : String
  language : String
  title : Option String
  viewCount : Nat
  createdAt : Int
  expiresAt : Option Int
  burnAfterRead : Bool
deriving DecidableEq

/-- Outcomes of GET /api/snippets/[id]
(src/app/api/snippets/[id]/route.ts).  The password-required response
carries metadata only; by construction it has no content field. -/
inductive ReadResponse where
  | notFound
  | passwordRequired (meta : SnippetMeta)
  | ok (content : Val) (meta : SnippetMeta)
deriving DecidableEq

/-- GET /api/snippets/[id] (src/app/api/snippets/[id]/route.ts, D1
variant): look the snippet up (which lazily expires it); if it is password
protected answer password-required with metadata only; otherwise increment
the view count, and — when burn_after_read is set — mark it deleted
immediately, before returning the content with viewCount + 1. -/
def snippetGET (tbl : SnippetTable) (i : String) (now : Int) :
    ReadResponse × SnippetTable :=
  match getSnippetById tbl i now with
  | (none, tbl1) => (.notFound, tbl1)
  | (some s, tbl1) =>
    if s.is_encrypted then
      (.passwordRequired
        ⟨s.id, s.language, s.title, s.view_count, s.created_at,
         s.expires_at, s.burn_after_read⟩, tbl1)
    else
      let tbl2 := incrementViewCount tbl1 i
      let tbl3 := if s.burn_after_read then markAsDeleted tbl2 i else tbl2
      (.ok s.content
        ⟨s.id, s.language, s.title, s.view_count + 1, s.created_at,
         s.expires_at, s.burn_after_read⟩, tbl3)

/-- Outcomes of the file download endpoint GET /api/files/[id] (the
variant with the two-view burn rule and the server-key layer).
`serverError` is the uncaught decryptWithKey failure surfacing as a 500. -/
inductive FileResponse where
  | notFound
  | passwordRequired (id : String) (fileName : Option String)
      (fileSize : Option Nat) (fileType : Option String)
      (burnAfterRead : Bool)
  | incorrectPassword
  | dataNotFound
  | decryptFailed
  | serverError
  | ok (data : Val)
deriving DecidableEq

/-- GET /api/files/[id] (src/unnamed/part_010): password gate for
encrypted files (the password comes from the query string or header,
missing modelled as ""), then R2 fetch, password layer removal, then the
server-key layer when `encryption_key` is present; finally the view count
is incremented and the file is burned — database row tombstoned and R2
object deleted — only when the new view count reaches 2. -/
def fileGET (tbl : SnippetTable) (r2 : List (String × Val)) (i : String)
    (now : Int) (password : String) :
    FileResponse × SnippetTable × List (String × Val) :=
  match getSnippetById tbl i now with
  | (none, tbl1) => (.notFound, tbl1, r2)
  | (some s, tbl1) =>
    if s.type ≠ "file" then (.notFound, tbl1, r2)
    else if s.is_encrypted then
      if password = "" then
        (.passwordRequired s.id s.file_name s.file_size s.file_type
          s.burn_after_read, tbl1, r2)
      else if verifyPassword s password = false then
        (.incorrectPassword, tbl1, r2)
      else
        match r2get r2 (s.r2_key.getD "") with
        | none => (.dataNotFound, tbl1, r2)
        | some raw =>
          match decryptBuffer raw password with
          | none => (.decryptFailed, tbl1, r2)
          | some layer1 =>
            let unwrapped : Option Val :=
              match s.encryption_key with
              | some k => decryptWithKey layer1 k
              | none => some layer1
            match unwrapped with
            | none => (.serverError, tbl1, r2)
            | some plain =>
              let tbl2 := incrementViewCount tbl1 i
              if s.burn_after_read ∧ 2 ≤ s.view_count + 1 then
                (.ok plain, markAsDeleted tbl2 i,
                 r2delete r2 (s.r2_key.getD ""))
              else (.ok plain, tbl2, r2)
    else
      match r2get r2 (s.r2_key.getD "") with
      | none => (.dataNotFound, tbl1, r2)
      | some raw =>
        let unwrapped : Option Val :=
          match s.encryption_key with
          | some k => decryptWithKey raw k
          | none => some raw
        match unwrapped with
        | none => (.serverError, tbl1, r2)
        | some plain =>
          let tbl2 := incrementViewCount tbl1 i
          if s.burn_after_read ∧ 2 ≤ s.view_count + 1 then
            (.ok plain, markAsDeleted tbl2 i, r2delete r2 (s.r2_key.getD ""))
          else (.ok plain, tbl2, r2)

/-! ## Theorems for the specification claims -/

/-- Claim C4: for every plaintext P and password W (including the empty
password), decrypting the encryption of P with the same W recovers P
exactly: decryptContent (encryptContent P W) W = P for the password layer,
and decryptWithKey (encryptWithKey P K) K = P for the server-key layer
used when no password is given — for every choice of fresh salt and IV. -/
theorem claim_C4_roundtrip (P W : String) (salt iv : List Nat)
    (d : Val) (k : Key) (iv2 : List Nat) :
    decryptContent (encryptContent (Val.str P) W salt iv) W
      = some (Val.str P) ∧
    decryptWithKey (encryptWithKey d k iv2) k = some d := by
  constructor
  · simp [decryptContent, encryptContent, gcmDecrypt, gcmEncrypt,
      arrayBufferToBase64, base64ToArrayBuffer, deriveKey, textEncode,
      textDecode]
  · simp [decryptWithKey, encryptWithKey, gcmDecrypt, gcmEncrypt]

/-- Claim C7: decrypting a password-layer ciphertext with a different
password fails explicitly with the null result (the GCM tag cannot verify
under the wrongly derived key) and never silently returns a wrong
plaintext; and verifyPasswordHash rejects any candidate password whose
derived PBKDF2 hash differs from the stored hash. -/
theorem claim_C7_wrong_password_fails (P W1 W2 : String)
    (salt iv : List Nat) (cand : String) (storedHash : PwHash)
    (storedSalt : List Nat) :
    (W1 ≠ W2 →
      decryptContent (encryptContent (Val.str P) W1 salt iv) W2 = none) ∧
    (PwHash.pbkdf2bits cand storedSalt ≠ storedHash →
      verifyPasswordHash cand storedHash storedSalt = false) := by
  constructor
  · intro hne
    simp [decryptContent, encryptContent, gcmDecrypt, gcmEncrypt,
      arrayBufferToBase64, base64ToArrayBuffer, deriveKey, textEncode,
      textDecode, hne]
  · intro hne
    simp [verifyPasswordHash, hne]

/-- Witness for claim C7 at concrete inputs. -/
theorem claim_C7_wrong_password_fails_witness :
    (("a" : String) ≠ "b" ∧
      decryptContent (encryptContent (Val.str "hi") "a" [] []) "b" = none) ∧
    (PwHash.pbkdf2bits "x" [] ≠ PwHash.pbkdf2bits "y" [] ∧
      verifyPasswordHash "x" (PwHash.pbkdf2bits "y" []) [] = false) :=
  ⟨⟨by decide,
    (claim_C7_wrong_password_fails "hi" "a" "b" [] [] "x"
      (PwHash.pbkdf2bits "y" []) []).1 (by decide)⟩,
   ⟨by decide,
    (claim_C7_wrong_password_fails "hi" "a" "b" [] [] "x"
      (PwHash.pbkdf2bits "y" []) []).2 (by decide)⟩⟩

/-- Claim C10: verifyPassword accepts every candidate password (including
the empty string) whenever the stored password_hash or password_salt is
null; only when both are present does it constrain access, by comparing
against the stored hash. -/
theorem claim_C10_null_hash_accepts_all (s : Snippet) (password : String) :
    ((s.password_hash = none ∨ s.password_salt = none) →
      verifyPassword s password = true) ∧
    (∀ h salt, s.password_hash = some h → s.password_salt = some salt →
      verifyPassword s password = verifyPasswordHash password h salt) := by
  constructor
  · intro hc
    cases hh : s.password_hash with
    | none => simp [verifyPassword, hh]
    | some h =>
      cases hs : s.password_salt with
      | none => simp [verifyPassword, hh, hs]
      | some salt =>
        rcases hc with hc | hc
        · rw [hh] at hc; exact Option.noConfusion hc
        · rw [hs] at hc; exact Option.noConfusion hc
  · intro h salt hh hs
    simp [verifyPassword, hh, hs]

/-- A stored record with a password salt but no password hash (as the
schema permits: both columns are nullable and independent). -/
def c10snippet : Snippet :=
  { id := "c10", content := Val.str "secret", language := "plaintext",
    title := none, password_hash := none, password_salt := some [1, 2],
    is_encrypted := true, expires_at := none, burn_after_read := false,
    view_count := 0, created_at := 0, is_deleted := false, type := "text",
    file_name := none, file_size := none, file_type := none,
    r2_key := none, encryption_key := none }

/-- Witness for claim C10: the record with a null hash accepts an
arbitrary candidate password. -/
theorem claim_C10_null_hash_accepts_all_witness :
    (c10snippet.password_hash = none ∨ c10snippet.password_salt = none) ∧
    verifyPassword c10snippet "any guess" = true :=
  ⟨Or.inl rfl,
   (claim_C10_null_hash_accepts_all c10snippet "any guess").1 (Or.inl rfl)⟩

/-- After the purge, the rows counted for (ip, action) are exactly the
rows of that pair whose timestamp lies in the closed window
[windowStart, now] — provided no row carries a future timestamp. -/
theorem countMatching_purgeOld (rl : List RateLimitEntry) (ip act : String)
    (ws now : Int) (h : ∀ r ∈ rl, r.timestamp ≤ now) :
    countMatching (purgeOld rl ws) ip act = countWindow rl ip act ws now := by
  induction rl with
  | nil => rfl
  | cons r rest ih =>
    have hr : r.timestamp ≤ now := h r (by simp)
    have hrest : ∀ x ∈ rest, x.timestamp ≤ now := fun x hx => h x (by simp [hx])
    by_cases hts : r.timestamp < ws
    · have hcond : ¬ (r.ip = ip ∧ r.action = act ∧ ws ≤ r.timestamp ∧
          r.timestamp ≤ now) := by
        rintro ⟨-, -, hle, -⟩
        omega
      simp [purgeOld, countWindow, hts, hcond, ih hrest]
    · have hws : ws ≤ r.timestamp := by omega
      by_cases hpair : r.ip = ip ∧ r.action = act
      · simp [purgeOld, countWindow, countMatching, hts, hpair, hws, hr,
          ih hrest]
      · have hcond : ¬ (r.ip = ip ∧ r.action = act ∧ ws ≤ r.timestamp ∧
            r.timestamp ≤ now) := by
          rintro ⟨h1, h2, -⟩
          exact hpair ⟨h1, h2⟩
        simp [purgeOld, countWindow, countMatching, hts, hpair, hcond,
          ih hrest]

/-- When every row of the pair is older than the window, the windowed
count is zero. -/
theorem countWindow_eq_zero (rl : List RateLimitEntry) (ip act : String)
    (lo hi : Int)
    (h : ∀ r ∈ rl, r.ip = ip → r.action = act → r.timestamp < lo) :
    countWindow rl ip act lo hi = 0 := by
  induction rl with
  | nil => rfl
  | cons r rest ih =>
    have hr := h r (by simp)
    have hrest : ∀ x ∈ rest, x.ip = ip → x.action = act → x.timestamp < lo :=
      fun x hx => h x (by simp [hx])
    have hcond : ¬ (r.ip = ip ∧ r.action = act ∧ lo ≤ r.timestamp ∧
        r.timestamp ≤ hi) := by
      rintro ⟨h1, h2, hle, -⟩
      have := hr h1 h2
      omega
    simp [countWindow, hcond, ih hrest]

/-- Claim C6: checkRateLimit with limit maxCount and window W counts the
prior records for the same (address, actionClass) with timestamp within
[now - W, now]; at or above maxCount it returns false and records nothing
(only the purge has run), otherwise it inserts one new entry timestamped
now and returns true; consequently an attempt whose pair-count already
reached maxCount within the window is rejected, and once every record of
the pair is older than the window an attempt succeeds again.  (The
hypothesis says no recorded timestamp is in the future.) -/
theorem claim_C6_sliding_window (rl : List RateLimitEntry) (ip act : String)
    (maxCount : Nat) (W now : Int) (hts : ∀ r ∈ rl, r.timestamp ≤ now) :
    (maxCount ≤ countWindow rl ip act (now - W) now →
      checkRateLimit rl ip act maxCount W now
        = (false, purgeOld rl (now - W))) ∧
    (countWindow rl ip act (now - W) now < maxCount →
      checkRateLimit rl ip act maxCount W now
        = (true, purgeOld rl (now - W) ++ [⟨ip, act, now⟩])) ∧
    ((∀ r ∈ rl, r.ip = ip → r.action = act → r.timestamp < now - W) →
      0 < maxCount → (checkRateLimit rl ip act maxCount W now).1 = true) := by
  have hcnt := countMatching_purgeOld rl ip act (now - W) now hts
  refine ⟨fun hge => ?_, fun hlt => ?_, fun hold hpos => ?_⟩
  · rw [← hcnt] at hge
    simp [checkRateLimit, hge]
  · have : ¬ maxCount ≤ countMatching (purgeOld rl (now - W)) ip act := by
      omega
    simp [checkRateLimit, this]
  · have hzero := countWindow_eq_zero rl ip act (now - W) now hold
    have : ¬ maxCount ≤ countMatching (purgeOld rl (now - W)) ip act := by
      omega
    simp [checkRateLimit, this]

/-- A concrete rate-limit table: one prior "create" request from the same
address 10 ms ago. -/
def c6rl : List RateLimitEntry := [⟨"10.0.0.1", "create", 50⟩]

/-- Witness for claim C6: with the single prior in-window request and
maxCount = 1, the next attempt within the window is rejected and the purge
leaves the table unchanged. -/
theorem claim_C6_sliding_window_witness :
    (∀ r ∈ c6rl, r.timestamp ≤ 60) ∧
    1 ≤ countWindow c6rl "10.0.0.1" "create" (60 - 100) 60 ∧
    checkRateLimit c6rl "10.0.0.1" "create" 1 100 60
      = (false, purgeOld c6rl (60 - 100)) :=
  ⟨by decide, by decide,
   (claim_C6_sliding_window c6rl "10.0.0.1" "create" 1 100 60
     (by decide)).1 (by decide)⟩

/-- A rate-limit table holding 20 prior "create_hour" rows for one
address, all timestamped two minutes before `now = 7200000` — inside the
one-hour window but outside the one-minute window. -/
def c3rl : List RateLimitEntry :=
  List.replicate 20 ⟨"1.2.3.4", "create_hour", 7080000⟩

/-- Server state for the C3 scenario. -/
def c3st : ServerState := ⟨[], c3rl, [], []⟩

/-- Claim C3, evaluated at the failing input: the address has 20 prior
create_hour requests inside the hour window, exactly the default per-hour
limit, so the hour window must reject the next create request — but the
per-minute check that runs first purges every row older than one minute
across all action classes, the hour count drops to 0, and the request is
allowed and created. -/
theorem claim_C3_minute_purge_erases_hour_window :
    countWindow c3rl "1.2.3.4" "create_hour" (7200000 - 3600000) 7200000
      = 20 ∧
    defaultSettings.rate_limit_per_hour = 20 ∧
    countMatching
      ((checkRateLimit c3rl "1.2.3.4" "create" 10 60000 7200000).2)
      "1.2.3.4" "create_hour" = 0 ∧
    (snippetsPOST c3st defaultSettings "1.2.3.4" (some "x") none none none
      none none 7200000 "id1" 0 [] [] [] []).1
      = .created "id1" := by decide

/-- A record whose expires_at is the Unix epoch (0): non-null, and in the
past of any positive clock. -/
def c5snippet : Snippet :=
  { id := "e", content := Val.str "old", language := "plaintext",
    title := none, password_hash := none, password_salt := none,
    is_encrypted := false, expires_at := some 0, burn_after_read := false,
    view_count := 0, created_at := 0, is_deleted := false, type := "text",
    file_name := none, file_size := none, file_type := none,
    r2_key := none, encryption_key := none }

/-- Counterexample to claim C5 as stated: this record's expiresAt is
non-null and strictly below now = 5, yet the read returns the object (not
Not Found) and marks nothing deleted, because the source tests JavaScript
truthiness (`snippet.expires_at && ...`) and the number 0 is falsy. -/
theorem claim_C5_counterexample :
    (c5snippet.expires_at = some 0 ∧ (0 : Int) < 5) ∧
    getSnippetById [c5snippet] "e" 5 = (some c5snippet, [c5snippet]) := by
  decide

/-- Every row of the tombstoned table that carries the id is deleted. -/
theorem markAsDeleted_sets_flag (tbl : SnippetTable) (i : String) :
    ∀ s2 ∈ markAsDeleted tbl i, s2.id = i → s2.is_deleted = true := by
  induction tbl with
  | nil => intro s2 h; exact absurd h (List.not_mem_nil s2)
  | cons x rest ih =>
    intro s2 hmem hid
    by_cases hx : x.id = i
    · simp [markAsDeleted, hx] at hmem
      rcases hmem with hmem | hmem
      · rw [hmem]
      · exact ih s2 hmem hid
    · simp [markAsDeleted, hx] at hmem
      rcases hmem with hmem | hmem
      · rw [hmem] at hid
        exact absurd hid hx
      · exact ih s2 hmem hid

/-- Claim C5 as amended: a read that finds the record and observes a
non-null, NONZERO expiresAt strictly below now returns Not Found and, as a
side effect of that same read, sets is_deleted on the record; a null
expiresAt never expires this way (the read returns the record and leaves
the table untouched).  The zero timestamp is the one non-null value the
code also treats as never-expiring. -/
theorem claim_C5_lazy_expiry (tbl : SnippetTable) (i : String)
    (now t : Int) (s : Snippet) (hfind : findActive tbl i = some s) :
    (s.expires_at = some t → t ≠ 0 → t < now →
      getSnippetById tbl i now = (none, markAsDeleted tbl i) ∧
      ∀ s2 ∈ markAsDeleted tbl i, s2.id = i → s2.is_deleted = true) ∧
    (s.expires_at = none → getSnippetById tbl i now = (some s, tbl)) := by
  constructor
  · intro hexp hnz hlt
    refine ⟨?_, markAsDeleted_sets_flag tbl i⟩
    simp [getSnippetById, hfind, expiredNow, hexp, hnz, hlt]
  · intro hexp
    simp [getSnippetById, hfind, expiredNow, hexp]

/-- A record that expired at t = 3. -/
def c5witnessSnippet : Snippet :=
  { c5snippet with id := "w", expires_at := some 3 }

/-- Witness for claim C5 (amended): reading the expired record at now = 10
returns Not Found and tombstones it. -/
theorem claim_C5_lazy_expiry_witness :
    (findActive [c5witnessSnippet] "w" = some c5witnessSnippet ∧
      c5witnessSnippet.expires_at = some 3 ∧ (3 : Int) ≠ 0 ∧ (3 : Int) < 10) ∧
    getSnippetById [c5witnessSnippet] "w" 10
      = (none, markAsDeleted [c5witnessSnippet] "w") :=
  ⟨⟨by decide, by decide, by decide, by decide⟩,
   ((claim_C5_lazy_expiry [c5witnessSnippet] "w" 10 3 c5witnessSnippet
     (by decide)).1 (by decide) (by decide) (by decide)).1⟩

/-- A burn-after-read text snippet that has never been viewed. -/
def c1snippet : Snippet :=
  { id := "s1", content := Val.str "hello", language := "plaintext",
    title := none, password_hash := none, password_salt := none,
    is_encrypted := false, expires_at := none, burn_after_read := true,
    view_count := 0, created_at := 0, is_deleted := false, type := "text",
    file_name := none, file_size := none, file_type := none,
    r2_key := none, encryption_key := none }

/-- Counterexample to claim C1 as stated: a burn-after-read TEXT snippet
is marked deleted already after its FIRST content-revealing read through
GET /api/snippets/[id] (the route has no view-count threshold), and the
second read attempt returns Not Found — not the claimed two successful
reads. -/
theorem claim_C1_counterexample :
    (c1snippet.burn_after_read = true ∧ c1snippet.view_count = 0) ∧
    (snippetGET [c1snippet] "s1" 0).1
      = .ok (Val.str "hello") ⟨"s1", "plaintext", none, 1, 0, none, true⟩ ∧
    (snippetGET [c1snippet] "s1" 0).2
      = [{ c1snippet with view_count := 1, is_deleted := true }] ∧
    (snippetGET ((snippetGET [c1snippet] "s1" 0).2) "s1" 0).1
      = .notFound := by decide

/-- Claim C1 as amended: the two-view burn semantics holds on the FILE
download route — a burn-after-read file returns its bytes on the first
read (view count 1, still active), returns them again on the second read
(view count 2, now tombstoned and its blob deleted), and is Not Found from
the third read on — while a burn-after-read TEXT snippet read through the
snippet API is marked deleted already on its first content-revealing read,
so its second read is Not Found. -/
theorem claim_C1_burn_semantics (title : Option String) (lang mime : String)
    (ca : Int) (v content : Val) (sz : Nat) (now1 now2 now3 : Int) :
    (let f : Snippet :=
      { id := "f", content := Val.str "", language := "plaintext",
        title := title, password_hash := none, password_salt := none,
        is_encrypted := false, expires_at := none, burn_after_read := true,
        view_count := 0, created_at := ca, is_deleted := false,
        type := "file", file_name := some "a.txt", file_size := some sz,
        file_type := some mime, r2_key := some "k", encryption_key := none }
     let r1 := fileGET [f] [("k", v)] "f" now1 ""
     let r2 := fileGET r1.2.1 r1.2.2 "f" now2 ""
     let r3 := fileGET r2.2.1 r2.2.2 "f" now3 ""
     r1.1 = .ok v ∧ r1.2.1 = [{ f with view_count := 1 }] ∧
       r1.2.2 = [("k", v)] ∧
     r2.1 = .ok v ∧
       r2.2.1 = [{ f with view_count := 2, is_deleted := true }] ∧
       r2.2.2 = [] ∧
     r3.1 = .notFound) ∧
    (let t : Snippet :=
      { id := "t", content := content, language := lang, title := title,
        password_hash := none, password_salt := none, is_encrypted := false,
        expires_at := none, burn_after_read := true, view_count := 0,
        created_at := ca, is_deleted := false, type := "text",
        file_name := none, file_size := none, file_type := none,
        r2_key := none, encryption_key := none }
     let r1 := snippetGET [t] "t" now1
     r1.1 = .ok content ⟨"t", lang, title, 1, ca, none, true⟩ ∧
       r1.2 = [{ t with view_count := 1, is_deleted := true }] ∧
       (snippetGET r1.2 "t" now2).1 = .notFound) := by
  constructor
  · simp [fileGET, getSnippetById, findActive, expiredNow, verifyPassword,
      r2get, r2delete, incrementViewCount, markAsDeleted]
  · simp [snippetGET, getSnippetById, findActive, expiredNow,
      incrementViewCount, markAsDeleted]

/-- An upload of the two plaintext bytes "hi". -/
def c2file : UploadFile := ⟨"a.txt", 2, "text/plain", Val.bytes [104, 105]⟩

/-- Counterexample to claim C2 as stated: a file created WITHOUT a
password is persisted in blob storage as its raw plaintext bytes — the
file route applies no server-key layer at all, so the object is stored as
cleartext at rest. -/
theorem claim_C2_counterexample :
    (filesPOST ⟨[], [], [], []⟩ defaultSettings "9.9.9.9" (some c2file)
      none none false 1000 "f1" [] [] []).1 = .created "f1" ∧
    r2get (filesPOST ⟨[], [], [], []⟩ defaultSettings "9.9.9.9"
      (some c2file) none none false 1000 "f1" [] [] []).2.r2
      "files/f1/a.txt" = some (Val.bytes [104, 105]) := by decide

/-- Claim C2 as amended: a TEXT snippet create always persists the content
encrypted under the freshly generated random per-object server key, with
the optional password layer applied on top of that ciphertext — in
particular never the raw string.  A FILE create applies only the optional
password layer: with a password the blob at rest is the password-encrypted
bytes, but a file created without a password is stored in blob storage as
its raw plaintext bytes. -/
theorem claim_C2_payload_at_rest (tbl : SnippetTable)
    (r2s : List (String × Val)) (ip c p fid : String)
    (language title : Option String) (seed : Nat)
    (siv psalt piv hsalt : List Nat) (d : Val) (sz : Nat) (mime : String)
    (hc : c ≠ "") (hlen : c.length ≤ 500000) (hp : p ≠ "")
    (hsz : sz ≤ 5242880) (hsznz : sz ≠ 0) :
    (let res := snippetsPOST ⟨tbl, [], [], r2s⟩ defaultSettings ip (some c)
      language title none none none 1000000 fid seed siv psalt piv hsalt
     let serverEnc := arrayBufferToBase64
       (encryptWithKey (textEncode (Val.str c)) (generateEncryptionKey seed) siv)
     res.1 = .created fid ∧ serverEnc ≠ Val.str c ∧
     res.2.snippets = tbl ++
       [{ id := fid, content := serverEnc,
          language := language.getD "plaintext", title := title,
          password_hash := none, password_salt := none,
          is_encrypted := false, expires_at := none,
          burn_after_read := false, view_count := 0, created_at := 1000,
          is_deleted := false, type := "text", file_name := none,
          file_size := none, file_type := none, r2_key := none,
          encryption_key := some (generateEncryptionKey seed) }]) ∧
    (let res := snippetsPOST ⟨tbl, [], [], r2s⟩ defaultSettings ip (some c)
      language title (some p) none none 1000000 fid seed siv psalt piv hsalt
     let serverEnc := arrayBufferToBase64
       (encryptWithKey (textEncode (Val.str c)) (generateEncryptionKey seed) siv)
     res.1 = .created fid ∧
     res.2.snippets = tbl ++
       [{ id := fid, content := encryptContent serverEnc p psalt piv,
          language := language.getD "plaintext", title := title,
          password_hash := some (PwHash.pbkdf2bits p hsalt),
          password_salt := some hsalt, is_encrypted := true,
          expires_at := none, burn_after_read := false, view_count := 0,
          created_at := 1000, is_deleted := false, type := "text",
          file_name := none, file_size := none, file_type := none,
          r2_key := none,
          encryption_key := some (generateEncryptionKey seed) }]) ∧
    (let res := filesPOST ⟨tbl, [], [], r2s⟩ defaultSettings ip
      (some ⟨"a.txt", sz, mime, d⟩) (some p) none false 1000000 fid
      psalt piv hsalt
     res.1 = .created fid ∧
     res.2.r2 = r2s ++
       [("files/" ++ fid ++ "/" ++ "a.txt", encryptBuffer d p psalt piv)]) ∧
    (let res := filesPOST ⟨tbl, [], [], r2s⟩ defaultSettings ip
      (some ⟨"a.txt", sz, mime, d⟩) none none false 1000000 fid
      psalt piv hsalt
     res.1 = .created fid ∧
     res.2.r2 = r2s ++ [("files/" ++ fid ++ "/" ++ "a.txt", d)]) := by
  have hlen2 : ¬ (500000 < c.length) := by omega
  have hsz2 : ¬ (5242880 < sz) := by omega
  refine ⟨?_, ?_, ?_, ?_⟩
  · simp [snippetsPOST, checkRateLimit, purgeOld, countMatching,
      defaultSettings, createSnippet, strTruthy, expiresTooLong, hc, hlen2,
      arrayBufferToBase64, encryptWithKey, textEncode, gcmEncrypt,
      generateEncryptionKey]
  · simp [snippetsPOST, checkRateLimit, purgeOld, countMatching,
      defaultSettings, createSnippet, strTruthy, expiresTooLong, hc, hlen2,
      hp]
  · simp [filesPOST, checkRateLimit, purgeOld, countMatching,
      defaultSettings, createSnippet, strTruthy, expiresTooLong, hsz2,
      hsznz, getFileExtension, lastDotSuffix, hp]
  · simp [filesPOST, checkRateLimit, purgeOld, countMatching,
      defaultSettings, createSnippet, strTruthy, expiresTooLong, hsz2,
      hsznz, getFileExtension, lastDotSuffix]

/-- Witness for claim C2 (amended), at concrete inputs: the no-password
text create persists the server-key ciphertext, not the raw string. -/
theorem claim_C2_payload_at_rest_witness :
    (("hi" : String) ≠ "" ∧ ("hi" : String).length ≤ 500000 ∧
      ("pw" : String) ≠ "" ∧ (2 : Nat) ≤ 5242880 ∧ (2 : Nat) ≠ 0) ∧
    ((snippetsPOST ⟨[], [], [], []⟩ defaultSettings "8.8.8.8" (some "hi")
        none none none none none 1000000 "n1" 7 [1] [2] [3] [4]).1
      = .created "n1" ∧
      arrayBufferToBase64 (encryptWithKey (textEncode (Val.str "hi"))
        (generateEncryptionKey 7) [1]) ≠ Val.str "hi" ∧
      (snippetsPOST ⟨[], [], [], []⟩ defaultSettings "8.8.8.8" (some "hi")
        none none none none none 1000000 "n1" 7 [1] [2] [3] [4]).2.snippets
        = [] ++
        [{ id := "n1",
           content := arrayBufferToBase64 (encryptWithKey
             (textEncode (Val.str "hi")) (generateEncryptionKey 7) [1]),
           language := (none : Option String).getD "plaintext",
           title := none, password_hash := none, password_salt := none,
           is_encrypted := false, expires_at := none,
           burn_after_read := false, view_count := 0, created_at := 1000,
           is_deleted := false, type := "text", file_name := none,
           file_size := none, file_type := none, r2_key := none,
           encryption_key := some (generateEncryptionKey 7) }]) :=
  ⟨⟨by decide, by decide, by decide, by decide, by decide⟩,
   (claim_C2_payload_at_rest [] [] "8.8.8.8" "hi" "pw" "n1" none none 7
     [1] [2] [3] [4] (Val.bytes [9]) 2 "text/plain" (by decide) (by decide)
     (by decide) (by decide) (by decide)).1⟩

/-- Claim C8: a create request (text snippet or file upload) from an
address on the denylist is rejected before any rate-limit accounting: the
whole state — in particular the rate_limits table — is returned unchanged,
and this holds whatever the rate-limit state is, i.e. even when no window
is exhausted. -/
theorem claim_C8_blocked_before_rate_limit (st : ServerState)
    (cfg : AppSettings) (ip : String)
    (content language title password : Option String)
    (expiresIn : Option Int) (burnAfterRead : Option Bool) (now : Int)
    (freshId : String) (keySeed : Nat)
    (serverIv pwSalt pwIv hashSalt : List Nat) (file : Option UploadFile)
    (bar : Bool) (hblocked : ip ∈ st.blockedIps) :
    snippetsPOST st cfg ip content language title password expiresIn
      burnAfterRead now freshId keySeed serverIv pwSalt pwIv hashSalt
      = (.blocked, st) ∧
    filesPOST st cfg ip file password expiresIn bar now freshId pwSalt
      pwIv hashSalt = (.blocked, st) := by
  constructor
  · simp [snippetsPOST, hblocked]
  · simp [filesPOST, hblocked]

/-- Witness for claim C8: a blocked address with untouched rate limits is
rejected and writes nothing. -/
theorem claim_C8_blocked_before_rate_limit_witness :
    ("6.6.6.6" : String) ∈ (["6.6.6.6"] : List String) ∧
    snippetsPOST ⟨[], [], ["6.6.6.6"], []⟩ defaultSettings "6.6.6.6"
      (some "x") none none none none none 0 "i" 0 [] [] [] []
      = (.blocked, ⟨[], [], ["6.6.6.6"], []⟩) :=
  ⟨by decide,
   (claim_C8_blocked_before_rate_limit ⟨[], [], ["6.6.6.6"], []⟩
     defaultSettings "6.6.6.6" (some "x") none none none none none 0 "i" 0
     [] [] [] [] none false (by decide)).1⟩

/-- Claim C9: a read of a password-protected snippet without a valid
password answers password-required with only the non-sensitive metadata
(language, title, view count, timestamps, flags) and never the content:
the response type carries no content field, two records differing only in
their stored content produce identical responses, and the table is
returned unchanged. -/
theorem claim_C9_password_required_no_content (s : Snippet) (c1 c2 : Val)
    (now : Int) (henc : s.is_encrypted = true) (hdel : s.is_deleted = false)
    (hexp : expiredNow s.expires_at now = false) :
    snippetGET [{ s with content := c1 }] s.id now
      = (.passwordRequired ⟨s.id, s.language, s.title, s.view_count,
          s.created_at, s.expires_at, s.burn_after_read⟩,
         [{ s with content := c1 }]) ∧
    (snippetGET [{ s with content := c1 }] s.id now).1
      = (snippetGET [{ s with content := c2 }] s.id now).1 := by
  constructor
  · simp [snippetGET, getSnippetById, findActive, hdel, henc, hexp]
  · simp [snippetGET, getSnippetById, findActive, hdel, henc, hexp]

/-- A password-protected record for the C9 witness. -/
def c9snippet : Snippet :=
  { id := "c9", content := Val.str "secret", language := "plaintext",
    title := none, password_hash := some (PwHash.pbkdf2bits "pw" [5]),
    password_salt := some [5], is_encrypted := true, expires_at := none,
    burn_after_read := false, view_count := 3, created_at := 7,
    is_deleted := false, type := "text", file_name := none,
    file_size := none, file_type := none, r2_key := none,
    encryption_key := none }

/-- Witness for claim C9: two encrypted records differing only in content
give the same metadata-only response, and the state is unchanged. -/
theorem claim_C9_password_required_no_content_witness :
    (c9snippet.is_encrypted = true ∧ c9snippet.is_deleted = false ∧
      expiredNow c9snippet.expires_at 99 = false) ∧
    snippetGET [{ c9snippet with content := Val.str "AAA" }] "c9" 99
      = (.passwordRequired ⟨"c9", "plaintext", none, 3, 7, none, false⟩,
         [{ c9snippet with content := Val.str "AAA" }]) ∧
    (snippetGET [{ c9snippet with content := Val.str "AAA" }] "c9" 99).1
      = (snippetGET [{ c9snippet with content := Val.str "BBB" }] "c9" 99).1 :=
  ⟨⟨rfl, rfl, rfl⟩,
   (claim_C9_password_required_no_content c9snippet (Val.str "AAA")
     (Val.str "BBB") 99 rfl rfl rfl).1,
   (claim_C9_password_required_no_content c9snippet (Val.str "AAA")
     (Val.str "BBB") 99 rfl rfl rfl).2⟩

end SnipShare
